import Mathlib

/-!
Shallow embedding of the analysis pipeline of `src/app.py` (a Streamlit
single-page app: validate four free-text answers, call the DeepSeek
chat-completion API, parse its JSON reply, normalize scores, persist a row
to Google Sheets, and render a closed radar chart).

Modelling conventions:
* JSON documents are modelled by the inductive `JVal`; finite JSON
  numbers are modelled as integers (fractional/exponent literals make the
  modelled parser fail, a restriction), while the non-finite floats that
  Python's json module accepts by default — `Infinity`, `-Infinity`,
  `NaN` — are modelled explicitly, because `int()` on them raises
  differently from every finite value (OverflowError is not caught by the
  coercion loop's `except (ValueError, TypeError)`).
* `json.loads` is modelled by `json_loads`, a fuel-indexed recursive
  descent parser that succeeds only if the whole input (modulo JSON
  whitespace) is one JSON value, exactly like Python's `json.loads`.
* External effects (the HTTP POST, the sheet append) are modelled by
  explicit outcome parameters (`NetOutcome`, an `appendOk : Bool`).
* Python exceptions that the code does not catch are made visible as
  explicit `PyExc` values in the result of the pipeline step.
-/

/-- JSON values as produced by `json.loads`. Finite numbers are modelled
as integers; the non-finite floats that Python's json module accepts by
default — the constants `Infinity`, `-Infinity` and `NaN`, which load as
`float('inf')`, `float('-inf')` and `float('nan')` — are modelled by
`jinf`/`jnan`, because `int()` treats them unlike every finite value
(OverflowError / ValueError). Finite non-integer floats stay outside the
model (Python also reaches `float('inf')` through overflowing exponent
literals such as `1e400`; the model represents that non-finite result
only through the explicit constants). -/
inductive JVal where
  | jnull
  | jbool (b : Bool)
  | jnum (n : Int)
  | jinf (neg : Bool)
  | jnan
  | jstr (s : String)
  | jarr (elems : List JVal)
  | jobj (fields : List (String × JVal))

/-- Python `d.get(k)` / `k in d` on a JSON object; `none` on non-objects. -/
def JVal.getKey : JVal → String → Option JVal
  | JVal.jobj fields, k => fields.lookup k
  | _, _ => none

/-- Python truthiness (`if analysis_result:`) of a JSON value:
`None`, `False`, `0`, `""`, `[]`, `{}` are falsy. -/
def pyTruthy : JVal → Bool
  | JVal.jnull => false
  | JVal.jbool b => b
  | JVal.jnum n => !(n == 0)
  | JVal.jinf _ => true
  | JVal.jnan => true
  | JVal.jstr s => !(s == "")
  | JVal.jarr elems => !elems.isEmpty
  | JVal.jobj fields => !fields.isEmpty

/-- Whitespace characters stripped by Python's `str.strip()`
(ASCII subset; exotic unicode spaces are outside the model). -/
def isPyWs (c : Char) : Bool :=
  c == ' ' || c == '\t' || c == '\n' || c == '\r' || c == '\x0b' || c == '\x0c'

/-- Drop leading Python whitespace from a character list. -/
def dropWhileWs : List Char → List Char
  | [] => []
  | c :: cs => if isPyWs c then dropWhileWs cs else c :: cs

/-- Characters of `s.strip()`: drop leading and trailing whitespace. -/
def pyStripChars (l : List Char) : List Char :=
  List.reverse (dropWhileWs (List.reverse (dropWhileWs l)))

/-- Python `s.strip()`. -/
def pyStrip (s : String) : String := String.mk (pyStripChars s.data)

mutual

/-- Grammar of the digit part accepted by Python `int(str)`:
`digit (underscore? digit)*`. -/
def digitsU : List Char → Bool
  | [] => false
  | c :: rest => c.isDigit && moreDigitsU rest

/-- Continuation of `digitsU`: after a digit, either the end, a single
underscore followed by more digits, or another digit. -/
def moreDigitsU : List Char → Bool
  | [] => true
  | '_' :: rest => digitsU rest
  | c :: rest => c.isDigit && moreDigitsU rest

end

/-- Numeric value of a digit list (no underscores). -/
def digitsVal0 (l : List Char) : Nat :=
  l.foldl (fun acc c => acc * 10 + (c.toNat - 48)) 0

/-- Numeric value of a Python int literal body (underscores removed). -/
def digitsVal (l : List Char) : Nat :=
  digitsVal0 (l.filter (fun c => !(c == '_')))

/-- Python `int(s)` on a string: strip whitespace, optional sign, digits
(with optional single underscores between digits); `none` = ValueError. -/
def pyStrToInt (s : String) : Option Int :=
  match pyStripChars s.data with
  | '-' :: rest => if digitsU rest then some (-(Int.ofNat (digitsVal rest))) else none
  | '+' :: rest => if digitsU rest then some (Int.ofNat (digitsVal rest)) else none
  | l => if digitsU l then some (Int.ofNat (digitsVal l)) else none

/-- How Python `int(v)` on a JSON value is seen by the coercion loop's
`except (ValueError, TypeError)` clause: an integer result, an exception
the clause catches, or an exception it does not. `int(float('inf'))`
raises OverflowError, which is NOT in the clause; `int(float('nan'))`
raises ValueError, which is. -/
inductive CoerceRes where
  | ok (n : Int)
  | caught
  | overflow
deriving DecidableEq

/-- Python `int(v)` on a JSON value: ints pass through, bools become 0/1,
numeric strings are parsed, non-numeric strings / `null` / lists / dicts
raise a caught ValueError/TypeError, `nan` raises a caught ValueError,
and the infinities raise an uncaught OverflowError. -/
def pyIntCoerce : JVal → CoerceRes
  | JVal.jnum n => CoerceRes.ok n
  | JVal.jbool b => CoerceRes.ok (if b then 1 else 0)
  | JVal.jstr s =>
    match pyStrToInt s with
    | some n => CoerceRes.ok n
    | none => CoerceRes.caught
  | JVal.jinf _ => CoerceRes.overflow
  | JVal.jnan => CoerceRes.caught
  | _ => CoerceRes.caught

/-- The value stored by one non-raising iteration of the normalization
loop in `display_portrait_results`
(`try: scores[k] = int(scores[k]) except (ValueError, TypeError): scores[k] = 0`):
the coerced integer, or 0 when the exception was caught. The raising
(OverflowError) iteration is tracked by `normalizeScoresE`. -/
def coerceScore (v : JVal) : Int :=
  match pyIntCoerce v with
  | CoerceRes.ok n => n
  | _ => 0

/-- The per-entry values of the normalization loop on the domain where no
iteration raises (every theorem that uses this on a raising entry pairs it
with `normalizeScoresE`, which carries the raise). -/
def normalizeScores (l : List (String × JVal)) : List (String × Int) :=
  l.map (fun p => (p.1, coerceScore p.2))

/-- Python exceptions that escape the pipeline uncaught: KeyError,
AttributeError and TypeError from `main`'s `data_row` construction, and
OverflowError from the coercion loop in `display_portrait_results`. -/
inductive PyExc where
  | keyError (k : String)
  | attributeError
  | typeError
  | overflowError
deriving DecidableEq

/-- The normalization loop `for k in scores: ...` itself: processes the
entries in order, stores the coerced integer (or 0 on a caught
ValueError/TypeError), and propagates the uncaught OverflowError of an
infinite score. -/
def normalizeScoresE : List (String × JVal) → Except PyExc (List (String × Int))
  | [] => Except.ok []
  | p :: rest =>
    match pyIntCoerce p.2 with
    | CoerceRes.overflow => Except.error PyExc.overflowError
    | CoerceRes.ok n =>
      match normalizeScoresE rest with
      | Except.ok r => Except.ok ((p.1, n) :: r)
      | Except.error e => Except.error e
    | CoerceRes.caught =>
      match normalizeScoresE rest with
      | Except.ok r => Except.ok ((p.1, 0) :: r)
      | Except.error e => Except.error e

/-- Whitespace skipped by the JSON grammar (`json.loads`). -/
def skipJsonWs : List Char → List Char
  | [] => []
  | c :: cs => if c == ' ' || c == '\t' || c == '\n' || c == '\r' then skipJsonWs cs else c :: cs

/-- Value of a hexadecimal digit, for `\uXXXX` string escapes. -/
def hexVal (c : Char) : Option Nat :=
  if c.isDigit then some (c.toNat - 48)
  else if 97 ≤ c.toNat ∧ c.toNat ≤ 102 then some (c.toNat - 87)
  else if 65 ≤ c.toNat ∧ c.toNat ≤ 70 then some (c.toNat - 55)
  else none

/-- Single-character JSON string escapes, by the code point each decodes
to (backspace 8, tab 9, newline 10, form feed 12, carriage return 13). -/
def escChar : Char → Option Char
  | '"' => some '"'
  | '\\' => some '\\'
  | '/' => some '/'
  | 'b' => some (Char.ofNat 8)
  | 't' => some (Char.ofNat 9)
  | 'n' => some (Char.ofNat 10)
  | 'f' => some (Char.ofNat 12)
  | 'r' => some (Char.ofNat 13)
  | _ => none

/-- Body of a JSON string after the opening quote: returns the decoded
characters and the remainder after the closing quote. -/
def parseStrChars : Nat → List Char → Option (List Char × List Char)
  | 0, _ => none
  | _ + 1, [] => none
  | fuel + 1, c :: cs =>
    if c == '"' then some ([], cs)
    else if c == '\\' then
      match cs with
      | 'u' :: h1 :: h2 :: h3 :: h4 :: rest =>
        match hexVal h1, hexVal h2, hexVal h3, hexVal h4 with
        | some a, some b, some x, some d =>
          match parseStrChars fuel rest with
          | some (tl, rem) => some (Char.ofNat (((a * 16 + b) * 16 + x) * 16 + d) :: tl, rem)
          | none => none
        | _, _, _, _ => none
      | e :: rest =>
        match escChar e with
        | some ch =>
          match parseStrChars fuel rest with
          | some (tl, rem) => some (ch :: tl, rem)
          | none => none
        | none => none
      | [] => none
    else
      match parseStrChars fuel cs with
      | some (tl, rem) => some (c :: tl, rem)
      | none => none

/-- Take the maximal run of decimal digits. -/
def takeDigits : List Char → List Char × List Char
  | [] => ([], [])
  | c :: cs =>
    if c.isDigit then
      match takeDigits cs with
      | (ds, rest) => (c :: ds, rest)
    else ([], c :: cs)

/-- A following `.`/`e`/`E` would start the fractional/exponent part of a
JSON number; such (float) numbers are outside the model. -/
def numFollower : List Char → Bool
  | [] => false
  | c :: _ => c == '.' || c == 'e' || c == 'E'

/-- The JSON grammar rejects superfluous leading zeros. -/
def noLeadingZero : List Char → Bool
  | [] => false
  | [_] => true
  | '0' :: _ :: _ => false
  | _ => true

/-- An integer JSON number token: optional minus, digits, no leading zero. -/
def parseIntToken (l : List Char) : Option (Int × List Char) :=
  match l with
  | '-' :: rest =>
    match takeDigits rest with
    | ([], _) => none
    | (ds, rem) =>
      if noLeadingZero ds && !(numFollower rem) then some (-(Int.ofNat (digitsVal0 ds)), rem)
      else none
  | _ =>
    match takeDigits l with
    | ([], _) => none
    | (ds, rem) =>
      if noLeadingZero ds && !(numFollower rem) then some (Int.ofNat (digitsVal0 ds), rem)
      else none

mutual

/-- One JSON value: leading whitespace, then an object, array, string,
literal or number; returns the value and the unconsumed remainder. -/
def parseValue : Nat → List Char → Option (JVal × List Char)
  | 0, _ => none
  | fuel + 1, s =>
    match skipJsonWs s with
    | '\x7b' :: cs => parseObjBody fuel cs
    | '[' :: cs => parseArrBody fuel cs
    | '"' :: cs =>
      match parseStrChars (cs.length + 1) cs with
      | some (chars, rest) => some (JVal.jstr (String.mk chars), rest)
      | none => none
    | 't' :: 'r' :: 'u' :: 'e' :: cs => some (JVal.jbool true, cs)
    | 'f' :: 'a' :: 'l' :: 's' :: 'e' :: cs => some (JVal.jbool false, cs)
    | 'n' :: 'u' :: 'l' :: 'l' :: cs => some (JVal.jnull, cs)
    | 'I' :: 'n' :: 'f' :: 'i' :: 'n' :: 'i' :: 't' :: 'y' :: cs => some (JVal.jinf false, cs)
    | '-' :: 'I' :: 'n' :: 'f' :: 'i' :: 'n' :: 'i' :: 't' :: 'y' :: cs => some (JVal.jinf true, cs)
    | 'N' :: 'a' :: 'N' :: cs => some (JVal.jnan, cs)
    | l =>
      match parseIntToken l with
      | some (n, rest) => some (JVal.jnum n, rest)
      | none => none

/-- Object body after the opening brace. -/
def parseObjBody : Nat → List Char → Option (JVal × List Char)
  | 0, _ => none
  | fuel + 1, s =>
    match skipJsonWs s with
    | '\x7d' :: cs => some (JVal.jobj [], cs)
    | l =>
      match parseMembers fuel l with
      | some (fields, rest) => some (JVal.jobj fields, rest)
      | none => none

/-- One or more `"key": value` members, ending at the closing brace. -/
def parseMembers : Nat → List Char → Option (List (String × JVal) × List Char)
  | 0, _ => none
  | fuel + 1, s =>
    match skipJsonWs s with
    | '"' :: cs =>
      match parseStrChars (cs.length + 1) cs with
      | some (kchars, rest1) =>
        match skipJsonWs rest1 with
        | ':' :: rest2 =>
          match parseValue fuel rest2 with
          | some (v, rest3) =>
            match skipJsonWs rest3 with
            | ',' :: rest4 =>
              match parseMembers fuel rest4 with
              | some (fields, rest5) => some ((String.mk kchars, v) :: fields, rest5)
              | none => none
            | '\x7d' :: rest4 => some ([(String.mk kchars, v)], rest4)
            | _ => none
          | none => none
        | _ => none
      | none => none
    | _ => none

/-- Array body after the opening bracket. -/
def parseArrBody : Nat → List Char → Option (JVal × List Char)
  | 0, _ => none
  | fuel + 1, s =>
    match skipJsonWs s with
    | ']' :: cs => some (JVal.jarr [], cs)
    | l =>
      match parseElems fuel l with
      | some (elems, rest) => some (JVal.jarr elems, rest)
      | none => none

/-- One or more comma-separated array elements, ending at `]`. -/
def parseElems : Nat → List Char → Option (List JVal × List Char)
  | 0, _ => none
  | fuel + 1, s =>
    match parseValue fuel s with
    | some (v, rest1) =>
      match skipJsonWs rest1 with
      | ',' :: rest2 =>
        match parseElems fuel rest2 with
        | some (elems, rest3) => some (v :: elems, rest3)
        | none => none
      | ']' :: rest2 => some ([v], rest2)
      | _ => none
    | none => none

end

/-- Python `json.loads`: the whole text (modulo surrounding JSON
whitespace) must be a single JSON value; `none` models `JSONDecodeError`. -/
def json_loads (s : String) : Option JVal :=
  match parseValue (3 * s.length + 3) s.data with
  | some (v, rest) => if (skipJsonWs rest).isEmpty then some v else none
  | none => none

/-- The figure description built by `create_radar_chart`: the closed
radial values, the closed category labels, the fixed radial axis range
`[0, 100]`, and the chart title. -/
structure RadarChart where
  r : List Int
  theta : List String
  rangeLo : Int
  rangeHi : Int
  title : String

/-- Python `scores.get(k, d)` on the (normalized, int-valued) score dict. -/
def scoreGet (scores : List (String × Int)) (k : String) (d : Int) : Int :=
  (scores.lookup k).getD d

/-- `create_radar_chart(scores, user_name)` from `src/app.py`:
fixed category order, `values_closed = values + [values[0]]`,
`categories_closed = categories + [categories[0]]`, radial range `[0, 100]`. -/
def create_radar_chart (scores : List (String × Int)) (user_name : String) : RadarChart :=
  let categories := ["创新指数", "协作潜力", "领导特质", "技术敏感度"]
  let values := [scoreGet scores "innovation" 0, scoreGet scores "collaboration" 0,
                 scoreGet scores "leadership" 0, scoreGet scores "tech_acumen" 0]
  ⟨values ++ [values.headD 0], categories ++ [categories.headD ""], 0, 100,
   "📊 " ++ user_name ++ " 的 AI 潜力雷达图"⟩

/-- The score-shape dispatch at the top of `display_portrait_results`:
if the data has a `scores` key whose value is a dict, use that dict;
otherwise read the four flat `*_score` fields (default 0 each). -/
def extractScores (data : JVal) : List (String × JVal) :=
  match data.getKey "scores" with
  | some (JVal.jobj s) => s
  | _ =>
    [("innovation", (data.getKey "innovation_score").getD (JVal.jnum 0)),
     ("collaboration", (data.getKey "collaboration_score").getD (JVal.jnum 0)),
     ("leadership", (data.getKey "leadership_score").getD (JVal.jnum 0)),
     ("tech_acumen", (data.getKey "tech_acumen_score").getD (JVal.jnum 0))]

/-- What `display_portrait_results` renders: golden sentence, normalized
scores, the radar chart, and the analysis text. -/
structure Display where
  userName : String
  golden : JVal
  scores : List (String × Int)
  chart : RadarChart
  analysis : JVal

/-- `display_portrait_results(current_user_name, analysis_result_data, ...)`:
resolve the score shape, run the coercion loop (which raises an uncaught
OverflowError on an infinite score), build the radar chart, and pick the
text fields with their fallbacks. -/
def display_portrait_results (userName : String) (data : JVal) : Except PyExc Display :=
  let golden := (data.getKey "golden_sentence").getD (JVal.jstr "您是一位充满潜力的探索者！")
  match normalizeScoresE (extractScores data) with
  | Except.error e => Except.error e
  | Except.ok scores =>
    let chart := create_radar_chart scores userName
    let analysis := (data.getKey "analysis").getD
      ((data.getKey "analysis_text").getD (JVal.jstr "分析内容生成失败，请重试。"))
    Except.ok ⟨userName, golden, scores, chart, analysis⟩

/-- Outcome of the HTTP POST to the DeepSeek endpoint, as observed by
`call_deepseek_api` after its own exception handling boundaries:
transport failure (`requests.RequestException`, including timeouts and
`raise_for_status`), a 2xx reply whose envelope lacks
`choices[0].message.content` (caught by the generic `except Exception`),
or a 2xx reply with the model's raw text. -/
inductive NetOutcome where
  | transportError
  | badEnvelope
  | ok (text : String)

/-- The error classes `call_deepseek_api` converts exceptions into
(each becomes an `st.error` message and a `None` return). -/
inductive ErrKind where
  | configError
  | transportError
  | malformedResponse
  | unknownError
deriving DecidableEq

/-- Return value of `call_deepseek_api`: the parsed JSON reply, or the
error class it reported before returning `None`. -/
inductive ApiResult where
  | success (v : JVal)
  | failure (e : ErrKind)

/-- `call_deepseek_api(user_inputs)` from `src/app.py`, with the secret
lookup `st.secrets.get("DEEPSEEK_API_KEY", "")` modelled by the `apiKey`
parameter and the network modelled by `net`. The second component records
whether the `requests.post` call was issued at all. -/
def call_deepseek_api (apiKey : String) (net : NetOutcome) : ApiResult × Bool :=
  if apiKey = "" then (ApiResult.failure ErrKind.configError, false)
  else
    match net with
    | NetOutcome.transportError => (ApiResult.failure ErrKind.transportError, true)
    | NetOutcome.badEnvelope => (ApiResult.failure ErrKind.unknownError, true)
    | NetOutcome.ok text =>
      match json_loads text with
      | some v => (ApiResult.success v, true)
      | none => (ApiResult.failure ErrKind.malformedResponse, true)

/-- The four free-text answers of the form. -/
structure UserInputs where
  innovation : String
  collaboration : String
  leadership : String
  tech_acumen : String

/-- The validation check in `main`:
`all([innovation.strip(), collaboration.strip(), leadership.strip(), tech_acumen.strip()])`
(a stripped string is truthy iff non-empty). -/
def validate_inputs (u : UserInputs) : Bool :=
  !(pyStrip u.innovation == "") && !(pyStrip u.collaboration == "") &&
    !(pyStrip u.leadership == "") && !(pyStrip u.tech_acumen == "")

/-- The `data_row` list built in `main` before `append_to_sheet`:
`analysis_result['scores']` raises `KeyError` when the key is absent,
`.get(...)` on a non-dict raises `AttributeError`, and subscripting a
non-dict parse result raises `TypeError`; none of these is caught. -/
def buildDataRow (u : UserInputs) (userName now shareId : String) (v : JVal) :
    Except PyExc (List JVal) :=
  match v with
  | JVal.jobj fields =>
    match fields.lookup "scores" with
    | some (JVal.jobj s) =>
      Except.ok [JVal.jstr now, JVal.jstr shareId, JVal.jstr userName,
        JVal.jstr u.innovation, JVal.jstr u.collaboration,
        JVal.jstr u.leadership, JVal.jstr u.tech_acumen,
        (s.lookup "innovation").getD (JVal.jstr ""),
        (s.lookup "collaboration").getD (JVal.jstr ""),
        (s.lookup "leadership").getD (JVal.jstr ""),
        (s.lookup "tech_acumen").getD (JVal.jstr ""),
        (fields.lookup "analysis").getD (JVal.jstr ""),
        (fields.lookup "golden_sentence").getD (JVal.jstr "")]
    | some _ => Except.error PyExc.attributeError
    | none => Except.error (PyExc.keyError "scores")
  | _ => Except.error PyExc.typeError

/-- Whether a parsed reply is a dict with a dict-valued `scores` entry,
i.e. exactly the condition under which `data_row` construction succeeds. -/
def hasDictScores : JVal → Bool
  | JVal.jobj fields =>
    match fields.lookup "scores" with
    | some (JVal.jobj _) => true
    | _ => false
  | _ => false

/-- What `main` does with one submitted form (the `if submitted:` branch):
validate, call the API, build the sheet row, append, and either display
the portrait or report the failure. -/
inductive MainOutcome where
  | invalidWarning
  | analysisFailed
  | uncaught (e : PyExc)
  | saveFailed
  | savedAndDisplayed (d : Display)

/-- The submitted-form branch of `main` in `src/app.py`. The pair's second
component records whether the DeepSeek network request was issued. -/
def mainSubmit (u : UserInputs) (userName apiKey : String) (net : NetOutcome)
    (appendOk : Bool) (now shareId : String) : MainOutcome × Bool :=
  if validate_inputs u then
    let ar := call_deepseek_api apiKey net
    match ar.1 with
    | ApiResult.failure _ => (MainOutcome.analysisFailed, ar.2)
    | ApiResult.success v =>
      if pyTruthy v then
        match buildDataRow u userName now shareId v with
        | Except.error e => (MainOutcome.uncaught e, ar.2)
        | Except.ok _ =>
          if appendOk then
            match display_portrait_results userName v with
            | Except.ok d => (MainOutcome.savedAndDisplayed d, ar.2)
            | Except.error e => (MainOutcome.uncaught e, ar.2)
          else (MainOutcome.saveFailed, ar.2)
      else (MainOutcome.analysisFailed, ar.2)
  else (MainOutcome.invalidWarning, false)

/-- A concrete fully-answered form (the end-to-end scenario of the spec). -/
def u0 : UserInputs :=
  ⟨"搭建了新的缓存层", "主持每日站会", "重新分配任务", "对AI智能体很兴奋"⟩

/-- A model reply whose JSON object is fenced inside markdown prose. -/
def proseText : String :=
  "Sure! ```json\n\x7b\"scores\": \x7b\"innovation\": 80\x7d\x7d\n```"

/-- The JSON object embedded inside `proseText`, on its own. -/
def innerText : String := "\x7b\"scores\": \x7b\"innovation\": 80\x7d\x7d"

/-- A well-formed model reply with all four scores and both text fields. -/
def goodJson : String :=
  "\x7b\"scores\": \x7b\"innovation\": 90, \"collaboration\": 75, \"leadership\": 60, \"tech_acumen\": 85\x7d, \"analysis\": \"很棒\", \"golden_sentence\": \"未来可期\"\x7d"

/-- A well-formed, truthy model reply that has no `scores` key. -/
def noScoresJson : String := "\x7b\"analysis\": \"只有分析\"\x7d"

/-- A model reply whose innovation score is the JSON constant `Infinity`,
which Python's `json.loads` accepts by default as `float('inf')`. -/
def infJson : String :=
  "\x7b\"scores\": \x7b\"innovation\": Infinity, \"collaboration\": 75, \"leadership\": 60, \"tech_acumen\": 85\x7d, \"analysis\": \"好\", \"golden_sentence\": \"棒\"\x7d"

/-- The API call produced a truthy parsed reply with a dict `scores` entry
(the condition under which `main` reaches the append step intact). -/
def apiOkWithScores (key : String) (net : NetOutcome) : Bool :=
  match (call_deepseek_api key net).1 with
  | ApiResult.success v => pyTruthy v && hasDictScores v
  | ApiResult.failure _ => false

/-- The API call produced a truthy parsed reply whose `scores` entry is
absent or not a dict (the condition that crashes `data_row` construction). -/
def apiTruthyNoScores (key : String) (net : NetOutcome) : Bool :=
  match (call_deepseek_api key net).1 with
  | ApiResult.success v => pyTruthy v && !(hasDictScores v)
  | ApiResult.failure _ => false

theorem string_length_ne_zero_iff (s : String) : s.length ≠ 0 ↔ s ≠ "" := by
  cases s with
  | mk l =>
    cases l with
    | nil => simp [String.length]
    | cons c cs =>
      constructor
      · intro _ h
        have hd : (String.mk (c :: cs)).data = ("" : String).data := by rw [h]
        simp at hd
      · intro _ h
        simp [String.length] at h

theorem hasDictScores_true_iff (u : UserInputs) (un now sid : String) (v : JVal) :
    hasDictScores v = true ↔ ∃ row, buildDataRow u un now sid v = Except.ok row := by
  cases v with
  | jnull => simp [hasDictScores, buildDataRow]
  | jbool b => simp [hasDictScores, buildDataRow]
  | jnum n => simp [hasDictScores, buildDataRow]
  | jinf neg => simp [hasDictScores, buildDataRow]
  | jnan => simp [hasDictScores, buildDataRow]
  | jstr s => simp [hasDictScores, buildDataRow]
  | jarr elems => simp [hasDictScores, buildDataRow]
  | jobj fields =>
    cases h : fields.lookup "scores" with
    | none => simp [hasDictScores, buildDataRow, h]
    | some val => cases val <;> simp [hasDictScores, buildDataRow, h]

/-- C7: for every four-score input, `create_radar_chart` produces the four
dimensions in the fixed order innovation, collaboration, leadership,
tech acumen (with their fixed category labels), followed by a repeat of
the first (category, value) pair to close the polygon — five pairs in
all — and the radial value domain is fixed to `[0, 100]`. -/
theorem C7_chart_closed_polygon : ∀ (i c l t : Int) (u : String),
    (create_radar_chart [("innovation", i), ("collaboration", c),
        ("leadership", l), ("tech_acumen", t)] u).r = [i, c, l, t, i] ∧
    (create_radar_chart [("innovation", i), ("collaboration", c),
        ("leadership", l), ("tech_acumen", t)] u).theta
      = ["创新指数", "协作潜力", "领导特质", "技术敏感度", "创新指数"] ∧
    (create_radar_chart [("innovation", i), ("collaboration", c),
        ("leadership", l), ("tech_acumen", t)] u).rangeLo = 0 ∧
    (create_radar_chart [("innovation", i), ("collaboration", c),
        ("leadership", l), ("tech_acumen", t)] u).rangeHi = 100 := by
  intro i c l t u
  exact ⟨rfl, rfl, rfl, rfl⟩

/-- C10: `create_radar_chart` is total on partial input — for every scores
dictionary, including one missing any of the four keys, it returns a
closed five-point chart description, using 0 for each missing key. -/
theorem C10_chart_total_on_partial_input : ∀ (scores : List (String × Int)) (u : String),
    (create_radar_chart scores u).r.length = 5 ∧
    (create_radar_chart scores u).theta.length = 5 ∧
    (create_radar_chart scores u).r.headD 0 = (create_radar_chart scores u).r.getLastD 1 ∧
    (create_radar_chart scores u).theta.headD "" = (create_radar_chart scores u).theta.getLastD "x" ∧
    (scores.lookup "innovation" = none → (create_radar_chart scores u).r.headD 1 = 0) ∧
    (scores.lookup "tech_acumen" = none → (create_radar_chart scores u).r[3]? = some 0) := by
  intro scores u
  refine ⟨rfl, rfl, rfl, rfl, ?_, ?_⟩
  · intro h
    simp [create_radar_chart, scoreGet, h]
  · intro h
    simp [create_radar_chart, scoreGet, h]

/-- C10 witness: the empty scores dictionary still yields a closed
five-point chart whose values are all 0. -/
theorem C10_chart_total_on_partial_input_witness :
    (create_radar_chart [] "游客").r.length = 5 ∧
    (create_radar_chart [] "游客").r.headD 1 = 0 ∧
    (create_radar_chart [] "游客").r[3]? = some 0 :=
  ⟨(C10_chart_total_on_partial_input [] "游客").1,
   (C10_chart_total_on_partial_input [] "游客").2.2.2.2.1 rfl,
   (C10_chart_total_on_partial_input [] "游客").2.2.2.2.2 rfl⟩

set_option maxRecDepth 100000 in
/-- C5: the code violates the never-raises claim at a representable
failing input. `json.loads` accepts the constant `Infinity` as
`float('inf')`, so a reply whose innovation score is `Infinity` parses,
is truthy, passes the dict-scores gate and the sheet append — and then
the coercion loop raises an uncaught OverflowError, because
`int(float('inf'))` raises OverflowError, which the loop's
`except (ValueError, TypeError)` does not catch: nothing is displayed
and no score is defaulted to 0. The rest of the claimed behavior does
hold: "85" coerces to 85 and a caught ValueError/TypeError stores 0. -/
theorem C5_infinity_score_raises_uncaught_overflow :
    json_loads infJson
      = some (JVal.jobj [("scores", JVal.jobj [("innovation", JVal.jinf false),
          ("collaboration", JVal.jnum 75), ("leadership", JVal.jnum 60),
          ("tech_acumen", JVal.jnum 85)]),
        ("analysis", JVal.jstr "好"), ("golden_sentence", JVal.jstr "棒")]) ∧
    (mainSubmit u0 "小王" "sk-test" (NetOutcome.ok infJson) true
        "2025-07-26 10:10:00" "share-5").1 = MainOutcome.uncaught PyExc.overflowError ∧
    pyIntCoerce (JVal.jinf false) = CoerceRes.overflow ∧
    normalizeScoresE [("innovation", JVal.jstr "85"), ("collaboration", JVal.jnull)]
      = Except.ok [("innovation", 85), ("collaboration", 0)] :=
  ⟨rfl, rfl, rfl, rfl⟩

/-- C3 counterexample: a model score of 150 survives normalization
unclamped and reaches the Chart Builder as 150 > 100, so normalization
does not confine scores to `[0, 100]`. -/
theorem C3_score_above_100_not_clamped :
    normalizeScores [("innovation", JVal.jnum 150), ("collaboration", JVal.jnum 70),
        ("leadership", JVal.jnum 60), ("tech_acumen", JVal.jnum 90)]
      = [("innovation", 150), ("collaboration", 70), ("leadership", 60), ("tech_acumen", 90)] ∧
    (create_radar_chart (normalizeScores [("innovation", JVal.jnum 150), ("collaboration", JVal.jnum 70),
        ("leadership", JVal.jnum 60), ("tech_acumen", JVal.jnum 90)]) "小王").r.headD 0 = 150 ∧
    ¬((150 : Int) ≤ 100) :=
  ⟨rfl, rfl, by decide⟩

/-- C3 amended: normalization coerces each present score to an integer
(defaulting to 0 on failure) but performs no clamping — an integer score
passes through unchanged whatever its magnitude, so values outside
`[0, 100]` are handed to the Chart Builder as-is. -/
theorem C3_coercion_without_clamping : ∀ (l : List (String × JVal)) (k : String) (n : Int),
    (k, JVal.jnum n) ∈ l → (k, n) ∈ normalizeScores l := by
  intro l k n h
  simp only [normalizeScores, List.mem_map]
  exact ⟨(k, JVal.jnum n), h, rfl⟩

/-- C3 witness: the out-of-range score 150 passes through normalization. -/
theorem C3_coercion_without_clamping_witness :
    (("innovation", (150 : Int)) ∈ normalizeScores [("innovation", JVal.jnum 150)]) ∧
    ¬((150 : Int) ≤ 100) :=
  ⟨C3_coercion_without_clamping [("innovation", JVal.jnum 150)] "innovation" 150
      (List.mem_singleton.mpr rfl),
   by decide⟩

/-- The LLM-shaped input of the presentation step: a nested `scores` dict
plus the two text fields. -/
def nestedShape (i c l t : JVal) : JVal :=
  JVal.jobj [("scores", JVal.jobj [("innovation", i), ("collaboration", c),
      ("leadership", l), ("tech_acumen", t)]),
    ("analysis", JVal.jstr "a"), ("golden_sentence", JVal.jstr "g")]

/-- The store-shaped input of the presentation step: flat `*_score` fields. -/
def flatShape (i c l t : JVal) : JVal :=
  JVal.jobj [("innovation_score", i), ("collaboration_score", c),
    ("leadership_score", l), ("tech_acumen_score", t), ("analysis_text", JVal.jstr "a")]

/-- C9: the presentation step resolves both accepted input shapes — a
nested `scores` dict and a flat record with `*_score` fields — to the same
canonical four scores, so equal score values in the two shapes yield equal
normalized scores and an identical chart description. -/
theorem C9_two_shapes_same_chart : ∀ (i c l t : JVal) (u : String),
    normalizeScores (extractScores (nestedShape i c l t))
      = normalizeScores (extractScores (flatShape i c l t)) ∧
    create_radar_chart (normalizeScores (extractScores (nestedShape i c l t))) u
      = create_radar_chart (normalizeScores (extractScores (flatShape i c l t))) u := by
  intro i c l t u
  exact ⟨rfl, rfl⟩

/-- C6: the Input Validator accepts exactly when every one of the four
free-text answers has non-zero length after trimming leading/trailing
whitespace; on rejection `main` shows the completeness warning and issues
no API call, and on acceptance it never shows that warning. -/
theorem C6_validator_iff_trimmed_nonempty :
    ∀ (u : UserInputs) (un key now sid : String) (net : NetOutcome) (ap : Bool),
    (validate_inputs u = true ↔
      ((pyStrip u.innovation).length ≠ 0 ∧ (pyStrip u.collaboration).length ≠ 0 ∧
       (pyStrip u.leadership).length ≠ 0 ∧ (pyStrip u.tech_acumen).length ≠ 0)) ∧
    (validate_inputs u = false →
      mainSubmit u un key net ap now sid = (MainOutcome.invalidWarning, false)) ∧
    (validate_inputs u = true →
      (mainSubmit u un key net ap now sid).1 ≠ MainOutcome.invalidWarning) := by
  intro u un key now sid net ap
  refine ⟨?_, ?_, ?_⟩
  · simp [validate_inputs, Bool.and_eq_true, Bool.not_eq_true', beq_eq_false_iff_ne,
      string_length_ne_zero_iff, and_assoc]
  · intro h
    simp [mainSubmit, h]
  · intro h
    simp only [mainSubmit, h, if_true]
    cases hr : (call_deepseek_api key net).1 with
    | failure e => simp [hr]
    | success v =>
      cases ht : pyTruthy v with
      | false => simp [hr, ht]
      | true =>
        cases hd : buildDataRow u un now sid v with
        | error e => simp [hr, ht, hd]
        | ok row =>
          cases ap with
          | false => simp [hr, ht, hd]
          | true =>
            cases hdp : display_portrait_results un v with
            | ok d => simp [hr, ht, hd, hdp]
            | error e => simp [hr, ht, hd, hdp]

/-- C6 witness: a whitespace-only innovation answer is rejected with the
warning and no API call; the fully answered form is not rejected. -/
theorem C6_validator_iff_trimmed_nonempty_witness :
    mainSubmit ⟨"   ", "b", "c", "d"⟩ "小王" "sk-test" NetOutcome.transportError true "t" "s"
      = (MainOutcome.invalidWarning, false) ∧
    (mainSubmit u0 "小王" "sk-test" NetOutcome.transportError true "t" "s").1
      ≠ MainOutcome.invalidWarning :=
  ⟨(C6_validator_iff_trimmed_nonempty ⟨"   ", "b", "c", "d"⟩ "小王" "sk-test" "t" "s"
      NetOutcome.transportError true).2.1 rfl,
   (C6_validator_iff_trimmed_nonempty u0 "小王" "sk-test" "t" "s"
      NetOutcome.transportError true).2.2 rfl⟩

/-- C8: with a missing or empty API credential, `call_deepseek_api`
signals the configuration error and returns without issuing the network
request, and the request is issued only under a non-empty credential. -/
theorem C8_config_error_before_network : ∀ (net : NetOutcome),
    call_deepseek_api "" net = (ApiResult.failure ErrKind.configError, false) ∧
    (∀ key : String, (call_deepseek_api key net).2 = true → key ≠ "") := by
  intro net
  constructor
  · rfl
  · intro key h hk
    rw [hk] at h
    simp [call_deepseek_api] at h

/-- C8 witness: the empty credential aborts before the network on a
concrete outcome, and a concrete non-empty credential is what any
network-issuing call must have. -/
theorem C8_config_error_before_network_witness :
    call_deepseek_api "" NetOutcome.transportError = (ApiResult.failure ErrKind.configError, false) ∧
    ("sk-test" : String) ≠ "" :=
  ⟨(C8_config_error_before_network NetOutcome.transportError).1,
   (C8_config_error_before_network NetOutcome.transportError).2 "sk-test" rfl⟩

/-- C1 counterexample: a response whose valid JSON object is fenced inside
markdown prose does NOT yield a parsed result — the full-text parse fails
and `call_deepseek_api` reports the malformed-response error, even though
the embedded `\x7b...\x7d` span on its own parses fine. There is no
extraction fallback in the code. -/
theorem C1_embedded_json_not_parsed :
    json_loads innerText
      = some (JVal.jobj [("scores", JVal.jobj [("innovation", JVal.jnum 80)])]) ∧
    json_loads proseText = none ∧
    (call_deepseek_api "sk-test" (NetOutcome.ok proseText)).1
      = ApiResult.failure ErrKind.malformedResponse :=
  ⟨rfl, rfl, rfl⟩

/-- C1 amended: the Result Parser attempts only a direct JSON parse of the
full response text; on failure it signals the malformed-response error
(returning None) with no balanced-span extraction fallback, so a response
containing JSON embedded in surrounding prose fails rather than parses. -/
theorem C1_direct_parse_only : ∀ (key text : String), key ≠ "" →
    (call_deepseek_api key (NetOutcome.ok text)).1
      = (match json_loads text with
         | some v => ApiResult.success v
         | none => ApiResult.failure ErrKind.malformedResponse) := by
  intro key text h
  simp only [call_deepseek_api, if_neg h]
  cases hj : json_loads text with
  | none => simp [hj]
  | some v => simp [hj]

set_option maxRecDepth 100000 in
/-- C1 witness: with a configured key, a well-formed all-JSON response is
returned parsed, exactly the direct-parse result. -/
theorem C1_direct_parse_only_witness :
    (call_deepseek_api "sk-test" (NetOutcome.ok goodJson)).1
      = ApiResult.success (JVal.jobj
          [("scores", JVal.jobj [("innovation", JVal.jnum 90), ("collaboration", JVal.jnum 75),
              ("leadership", JVal.jnum 60), ("tech_acumen", JVal.jnum 85)]),
           ("analysis", JVal.jstr "很棒"), ("golden_sentence", JVal.jstr "未来可期")]) := by
  have h := C1_direct_parse_only "sk-test" goodJson (by decide)
  exact h.trans rfl

set_option maxRecDepth 100000 in
/-- C2 counterexample: a successful analysis whose sheet append fails ends
in the save-error branch — `display_portrait_results` is never invoked, so
the chart/scores/analysis are NOT displayed; display is gated on the
append succeeding. -/
theorem C2_append_failure_blocks_display :
    (mainSubmit u0 "小王" "sk-test" (NetOutcome.ok goodJson) false
        "2025-07-26 10:00:00" "share-1").1 = MainOutcome.saveFailed :=
  rfl

/-- C2 amended: persistence is coupled to display — the portrait is
displayed only when the record-store append succeeded, and on append
failure the user gets the save-error message with no displayed result. -/
theorem C2_display_requires_append_success :
    ∀ (u : UserInputs) (un key now sid : String) (net : NetOutcome),
    (∀ (ap : Bool) (d : Display),
        (mainSubmit u un key net ap now sid).1 = MainOutcome.savedAndDisplayed d → ap = true) ∧
    (validate_inputs u = true → apiOkWithScores key net = true →
        (mainSubmit u un key net false now sid).1 = MainOutcome.saveFailed) := by
  intro u un key now sid net
  constructor
  · intro ap d h
    cases ap with
    | true => rfl
    | false =>
      exfalso
      cases hv : validate_inputs u with
      | false => simp [mainSubmit, hv] at h
      | true =>
        cases hr : (call_deepseek_api key net).1 with
        | failure e => simp [mainSubmit, hv, hr] at h
        | success v =>
          cases ht : pyTruthy v with
          | false => simp [mainSubmit, hv, hr, ht] at h
          | true =>
            cases hd : buildDataRow u un now sid v with
            | error e => simp [mainSubmit, hv, hr, ht, hd] at h
            | ok row => simp [mainSubmit, hv, hr, ht, hd] at h
  · intro hv hok
    cases hr : (call_deepseek_api key net).1 with
    | failure e => simp [apiOkWithScores, hr] at hok
    | success v =>
      simp only [apiOkWithScores, hr, Bool.and_eq_true] at hok
      obtain ⟨row, hrow⟩ := (hasDictScores_true_iff u un now sid v).mp hok.2
      simp [mainSubmit, hv, hr, hok.1, hrow]

set_option maxRecDepth 100000 in
/-- C2 witness: a concrete good analysis with a failing append lands in
the save-error branch rather than being displayed. -/
theorem C2_display_requires_append_success_witness :
    (mainSubmit u0 "小李" "sk-test" (NetOutcome.ok goodJson) false
        "2025-07-26 11:00:00" "share-9").1 = MainOutcome.saveFailed :=
  (C2_display_requires_append_success u0 "小李" "sk-test" "2025-07-26 11:00:00" "share-9"
      (NetOutcome.ok goodJson)).2 rfl rfl

/-- C4 counterexample: a successfully parsed, truthy model reply that
lacks the `scores` key makes `main` raise an uncaught KeyError while
building `data_row` — the failure is not converted to a user-facing
message at the step boundary. -/
theorem C4_missing_scores_uncaught :
    (mainSubmit u0 "小王" "sk-test" (NetOutcome.ok noScoresJson) true
        "2025-07-26 10:05:00" "share-2").1
      = MainOutcome.uncaught (PyExc.keyError "scores") :=
  rfl

/-- C4 amended: failures raised inside `call_deepseek_api` are caught at
its boundary and converted to a user-facing message, but not every
failure in the pipeline is: a successfully parsed truthy response whose
`scores` entry is absent or not a dict raises an uncaught
KeyError/AttributeError during `main`'s `data_row` construction, so an
exception does propagate out of the pipeline there. -/
theorem C4_uncaught_on_missing_scores :
    ∀ (u : UserInputs) (un key now sid : String) (net : NetOutcome) (ap : Bool),
    (validate_inputs u = true →
      ∀ ek, (call_deepseek_api key net).1 = ApiResult.failure ek →
        (mainSubmit u un key net ap now sid).1 = MainOutcome.analysisFailed) ∧
    (validate_inputs u = true → apiTruthyNoScores key net = true →
      ∃ e, (mainSubmit u un key net ap now sid).1 = MainOutcome.uncaught e) := by
  intro u un key now sid net ap
  constructor
  · intro hv ek hr
    simp [mainSubmit, hv, hr]
  · intro hv hok
    cases hr : (call_deepseek_api key net).1 with
    | failure e => simp [apiTruthyNoScores, hr] at hok
    | success v =>
      simp only [apiTruthyNoScores, hr, Bool.and_eq_true] at hok
      have hds : hasDictScores v = false := by
        cases hds2 : hasDictScores v with
        | false => rfl
        | true =>
          rw [hds2] at hok
          simp at hok
      cases hd : buildDataRow u un now sid v with
      | ok row =>
        exfalso
        have hds3 := (hasDictScores_true_iff u un now sid v).mpr ⟨row, hd⟩
        rw [hds] at hds3
        exact Bool.noConfusion hds3
      | error e =>
        exact ⟨e, by simp [mainSubmit, hv, hr, hok.1, hd]⟩

/-- C4 witness: a transport failure is converted to the analysis-failed
message, while the truthy no-scores reply yields an uncaught fault, both
for the concrete submitted form. -/
theorem C4_uncaught_on_missing_scores_witness :
    (mainSubmit u0 "小王" "sk-test" NetOutcome.transportError true
        "2025-07-26 10:06:00" "share-3").1 = MainOutcome.analysisFailed ∧
    ∃ e, (mainSubmit u0 "小王" "sk-test" (NetOutcome.ok noScoresJson) false
        "2025-07-26 10:07:00" "share-4").1 = MainOutcome.uncaught e :=
  ⟨(C4_uncaught_on_missing_scores u0 "小王" "sk-test" "2025-07-26 10:06:00" "share-3"
      NetOutcome.transportError true).1 rfl ErrKind.transportError rfl,
   (C4_uncaught_on_missing_scores u0 "小王" "sk-test" "2025-07-26 10:07:00" "share-4"
      (NetOutcome.ok noScoresJson) false).2 rfl rfl⟩
